import Mathlib

/-
Verification of the S3I client library (server_code/s3i): token lifecycle
(auth.py), broker transport (broker.py) and the exception taxonomy
(exceptions.py), shallowly embedded in Lean 4.

Time is modelled as integers (seconds); `datetime.now()` becomes an explicit
`now : Time` argument.  HTTP traffic is modelled by passing the response (or a
response oracle) explicitly and by returning the list of requests a call
issues.  Fallible code returns `Except`.
-/

namespace S3I

/-- Absolute timestamps, modelling Python `datetime` values. -/
abbrev Time := Int

/-- Form-encoded request bodies, modelling the Python payload dicts. -/
abbrev Payload := List (String × String)

/-- Embeds the `Token` dataclass of auth.py (lines 13-20). -/
structure Token where
  auth_scheme : String
  token_content : String
  expires_at : Time
  refresh_token : String
  refresh_expires_at : Time
deriving Repr, DecidableEq

/-- Embeds `Token.expired` (auth.py line 24): `datetime.now() < self.expires_at`. -/
def Token.expired (t : Token) (now : Time) : Bool :=
  decide (now < t.expires_at)

/-- Embeds `Token.refresh_expired` (auth.py line 28): `datetime.now() < self.refresh_expires_at`. -/
def Token.refresh_expired (t : Token) (now : Time) : Bool :=
  decide (now < t.refresh_expires_at)

/-- Spec-shaped expiry predicate, from the spec sentence `expired = now() >= expiresAt`. -/
def Token.expired_spec (t : Token) (now : Time) : Bool :=
  decide (now ≥ t.expires_at)

/-- Spec-shaped refresh-expiry predicate, from `refreshExpired = now() >= refreshExpiresAt`. -/
def Token.refresh_expired_spec (t : Token) (now : Time) : Bool :=
  decide (now ≥ t.refresh_expires_at)

/-- Embeds `Token.full_token` (auth.py line 32). -/
def Token.full_token (t : Token) : String :=
  t.auth_scheme ++ " " ++ t.token_content

/-- Embeds `Token.header` (auth.py line 36) as an association list. -/
def Token.header (t : Token) : List (String × String) :=
  [("Authorization", t.full_token)]

/-- Grant-specific credentials held by the authenticator subclasses
(`ClientAuthenticator` stores id/secret, `PasswordAuthenticator` adds
username/password). -/
inductive AuthKind where
  | clientCred (id secret : String)
  | passwordCred (id secret username userpass : String)
deriving Repr, DecidableEq

/-- Embeds `_build_auth_payload` of `ClientAuthenticator` (auth.py lines 142-148)
and of `PasswordAuthenticator` (auth.py lines 169-177). -/
def build_auth_payload : AuthKind → Payload
  | .clientCred id secret =>
      [("grant_type", "client_credentials"), ("client_id", id), ("client_secret", secret)]
  | .passwordCred id secret username userpass =>
      [("grant_type", "password"), ("client_id", id), ("client_secret", secret),
       ("username", username), ("password", userpass)]

/-- Identity-provider HTTP response: status, raw text, and the JSON fields the
code reads on success (`response.json()` is abstracted into these fields). -/
structure IdpResponse where
  status_code : Nat
  text : String
  token_type : String
  access_token : String
  expires_in : Int
  refresh_token : String
  refresh_expires_in : Int
deriving Repr, DecidableEq

/-- Exceptions raised by auth.py: `AuthenticationException` and its subtype
`InvalidCredentialsException`, each carrying message, optional status code and
optional raw response text (exceptions.py lines 37-42). -/
inductive AuthError where
  | authenticationException (message : String) (status_code : Option Nat) (response : Option String)
  | invalidCredentialsException (message : String) (status_code : Option Nat) (response : Option String)
deriving Repr, DecidableEq

/-- Literal error body checked at auth.py line 82. -/
def invalid_client_body : String :=
  "\x7b\"error\":\"invalid_client\",\"error_description\":\"Invalid client credentials\"\x7d"

/-- Token built from a successful identity-provider response (auth.py lines 96-103):
relative expiries are added to `now`. -/
def token_of_response (now : Time) (r : IdpResponse) : Token :=
  { auth_scheme := r.token_type
    token_content := r.access_token
    expires_at := now + r.expires_in
    refresh_token := r.refresh_token
    refresh_expires_at := now + r.refresh_expires_in }

namespace BaseAuthenticator

/-- Embeds `BaseAuthenticator._get_token_from_idp` (auth.py lines 71-103).
Returns the requests issued and either the parsed token or the raised error.
`idp` maps the posted form payload to the identity-provider response. -/
def get_token_from_idp (kind : AuthKind) (now : Time)
    (idp : Payload → IdpResponse) : List Payload × Except AuthError Token :=
  let payload := build_auth_payload kind
  let resp := idp payload
  if 400 ≤ resp.status_code then
    if resp.text = invalid_client_body then
      ([payload], .error (.invalidCredentialsException "Invalid client credentials."
        (some resp.status_code) (some resp.text)))
    else
      ([payload], .error (.authenticationException
        "Could not obtain token from S³I Identity Provider."
        (some resp.status_code) (some resp.text)))
  else
    ([payload], .ok (token_of_response now resp))

/-- Embeds `BaseAuthenticator._refresh_token` (auth.py lines 105-121).  On a
status below 400 the Python function falls off the end and returns `None`,
modelled here as `.ok none`; on status ≥ 400 it raises `AuthenticationException`. -/
def refresh_token (rt : String) (idp : Payload → IdpResponse) :
    List Payload × Except AuthError (Option Token) :=
  let payload : Payload := [("grant_type", "refresh_token"), ("refresh_token", rt)]
  let resp := idp payload
  if 400 ≤ resp.status_code then
    ([payload], .error (.authenticationException
      "Could not refresh token from S³I Identity Provider."
      (some resp.status_code) (some resp.text)))
  else
    ([payload], .ok none)

deriving instance DecidableEq for Except

/-- Outcome of one `obtain_token` call: the returned token or raised error, the
cached token afterwards, and the identity-provider requests issued. -/
structure ObtainOutcome where
  result : Except AuthError Token
  state : Option Token
  requests : List Payload
deriving Repr, DecidableEq

/-- Embeds `BaseAuthenticator.obtain_token` (auth.py lines 52-69).  `tok` is the
cached `self.__token` before the call.  A raised exception leaves the cached
token unchanged; an assignment of `None` (the refresh path) is followed by the
`if self.__token is None` re-raise at line 63. -/
def obtain_token (kind : AuthKind) (tok : Option Token) (now : Time)
    (idp : Payload → IdpResponse) : ObtainOutcome :=
  let step : List Payload × Except AuthError (Option Token) :=
    match tok with
    | some t =>
      if !(t.expired now) then
        ([], .ok (some t))
      else if !(t.refresh_expired now) then
        refresh_token t.refresh_token idp
      else
        let (reqs, r) := get_token_from_idp kind now idp
        (reqs, r.map some)
    | none =>
        let (reqs, r) := get_token_from_idp kind now idp
        (reqs, r.map some)
  match step with
  | (reqs, .error e) => { result := .error e, state := tok, requests := reqs }
  | (reqs, .ok none) =>
      { result := .error (.authenticationException
          "Could not obtain token from S³I Identity Provider." none none)
        state := none, requests := reqs }
  | (reqs, .ok (some t)) => { result := .ok t, state := some t, requests := reqs }

end BaseAuthenticator

/-- Embeds the `S3IException` base class of exceptions.py (lines 7-17).  The
header and body attributes are arbitrary Python objects; they are carried here
with their types as parameters, together with the rendering functions standing
for Python `str()` in the f-strings of `__str__`. -/
structure S3IException (H B : Type) where
  message : String
  headers : Option H
  body : Option B
  status_code : Option Nat
  response : Option String
deriving Repr, DecidableEq

/-- Embeds the metadata list built by `S3IException.__str__` (exceptions.py
lines 22-31): four sequential conditional appends. -/
def S3IException.metadata {H B : Type} (fh : H → String) (fb : B → String)
    (e : S3IException H B) : List String :=
  let m0 : List String := []
  let m1 := match e.headers with
    | some h => m0 ++ ["Headers: " ++ fh h]
    | none => m0
  let m2 := match e.body with
    | some b => m1 ++ ["Body: " ++ fb b]
    | none => m1
  let m3 := match e.status_code with
    | some s => m2 ++ ["Status Code: " ++ toString s]
    | none => m2
  match e.response with
  | some r => m3 ++ ["Response: " ++ r]
  | none => m3

/-- Embeds the return value of `S3IException.__str__` (exceptions.py line 34):
the message, a space, the metadata joined by `"| "`, stripped. -/
def S3IException.render {H B : Type} (fh : H → String) (fb : B → String)
    (e : S3IException H B) : String :=
  (e.message ++ " " ++ String.intercalate "| " (e.metadata fh fb)).trim

/-- Spec-shaped metadata list: the present diagnostic fields, in the fixed
order headers, body, status code, response, absent fields omitted. -/
def S3IException.metadata_spec {H B : Type} (fh : H → String) (fb : B → String)
    (e : S3IException H B) : List String :=
  [e.headers.map (fun h => "Headers: " ++ fh h),
   e.body.map (fun b => "Body: " ++ fb b),
   e.status_code.map (fun s => "Status Code: " ++ toString s),
   e.response.map (fun r => "Response: " ++ r)].filterMap id

/-- Embeds the `Thing` dataclass of broker.py (lines 13-19) after
`__post_init__` ran: both queue names are set. -/
structure Thing where
  id : String
  secret : String
  message_queue : String
  event_queue : String
deriving Repr, DecidableEq

/-- Embeds `Thing.__post_init__` (broker.py lines 21-33): `None` queue names
are replaced by derived defaults and a warning is emitted for each default.
Returns the constructed `Thing` and the warning messages in order. -/
def Thing.post_init (id secret : String)
    (message_queue event_queue : Option String) : Thing × List String :=
  let mq : String × List String := match message_queue with
    | none =>
        let q := "s3ibs://" ++ id
        (q, ["No message queue provided. Generated default message queue: " ++ q])
    | some q => (q, [])
  let ev : String × List String := match event_queue with
    | none =>
        let q := "s3ib://" ++ id ++ "/event"
        (q, ["No event queue provided. Generated default event queue: " ++ q])
    | some q => (q, [])
  ({ id := id, secret := secret, message_queue := mq.1, event_queue := ev.1 },
   mq.2 ++ ev.2)

/-- Opaque handle standing for an `httpx.AsyncClient` connection pool. -/
structure HttpClient where
  cid : Nat
deriving Repr, DecidableEq

/-- Default identity-provider URL (auth.py lines 8-10). -/
def DEFAULT_IDP_URL : String :=
  "https://idp.s3i.vswf.dev/auth/realms/KWH/protocol/openid-connect/token"

/-- Default broker URL (broker.py line 10). -/
def DEFAULT_BROKER_URL : String := "https://broker.s3i.vswf.dev"

/-- State built by `BaseAuthenticator.__init__` (auth.py lines 40-46) together
with the subclass credentials. -/
structure AuthenticatorState where
  token : Option Token
  idp_url : String
  client : HttpClient
  external_client : Bool
  kind : AuthKind
deriving Repr, DecidableEq

/-- Embeds `BaseAuthenticator.__init__` (auth.py lines 40-46): `client` is the
caller-supplied transport or `None`; `fresh` stands for the
`httpx.AsyncClient()` constructed when none is supplied.  The code records
`self.external_client = client is None`. -/
def BaseAuthenticator.init (kind : AuthKind) (client : Option HttpClient)
    (fresh : HttpClient) (idp_url : String) : AuthenticatorState :=
  { token := none, idp_url := idp_url, client := client.getD fresh,
    external_client := client.isNone, kind := kind }

/-- Embeds `BaseAuthenticator.__del__` (auth.py lines 48-50): the transport is
closed exactly when this returns `true`. -/
def BaseAuthenticator.del_closes (st : AuthenticatorState) : Bool :=
  !st.external_client

/-- State built by `Broker.__init__` (broker.py lines 37-50). -/
structure BrokerState where
  broker_url : String
  client : HttpClient
  external_client : Bool
  auth : AuthenticatorState
  message_queue : String
  event_queue : String
deriving Repr, DecidableEq

namespace Broker

/-- Embeds `Broker.__init__` (broker.py lines 37-50): a `ClientAuthenticator`
is built from the Thing id and secret, sharing `self.client` (so the
authenticator always receives a non-`None` client). -/
def init (self_thing : Thing) (client : Option HttpClient) (fresh : HttpClient)
    (broker_url : String) : BrokerState :=
  let c := client.getD fresh
  { broker_url := broker_url, client := c, external_client := client.isNone,
    auth := BaseAuthenticator.init (.clientCred self_thing.id self_thing.secret)
      (some c) fresh DEFAULT_IDP_URL,
    message_queue := self_thing.message_queue, event_queue := self_thing.event_queue }

/-- Embeds `Broker.__del__` (broker.py lines 52-54): the transport is closed
exactly when this returns `true`. -/
def del_closes (b : BrokerState) : Bool :=
  !b.external_client

/-- Broker HTTP response: status, headers and raw text. -/
structure HttpResponse where
  status_code : Nat
  headers : List (String × String)
  text : String
deriving Repr, DecidableEq

/-- JSON objects sent as messages, abstracted to association lists. -/
abbrev JsonObj := List (String × String)

/-- One outbound broker request as issued by `send` (broker.py line 63). -/
structure SendRequest where
  url : String
  headers : List (String × String)
  json : JsonObj
deriving Repr, DecidableEq

/-- Embeds `Broker.send` (broker.py lines 56-73) after the token was obtained:
posts to `{broker_url}/{endpoint}` with content-type and bearer headers and
raises `S3IException` on any status other than 201.  `respond` maps the issued
request to the broker response. -/
def send (broker_url : String) (tok : Token) (endpoint : String)
    (message : JsonObj) (respond : SendRequest → HttpResponse) :
    Except (S3IException (List (String × String)) JsonObj) Unit :=
  let headers := [("Content-Type", "application/json")] ++ tok.header
  let url := broker_url ++ "/" ++ endpoint
  let resp := respond { url := url, headers := headers, json := message }
  if resp.status_code ≠ 201 then
    .error { message := "Failed to send message to " ++ endpoint ++ "."
             headers := some resp.headers
             body := some message
             status_code := some resp.status_code
             response := some resp.text }
  else
    .ok ()

/-- Embeds the URL built by `Broker.receive` (broker.py lines 75-80): the
endpoint is the event queue when `event` is true, else the message queue, and
the Python literal suffix `'\all'` is the BEL character followed by `ll`. -/
def receive_url (broker_url message_queue event_queue : String)
    (event all : Bool) : String :=
  let endpoint := if event then event_queue else message_queue
  broker_url ++ "/" ++ endpoint ++ (if all then "\x07ll" else "")

/-- Spec-shaped receive URL, from the spec sentence: a literal `/all` suffix is
appended to the endpoint path exactly when `all` is true. -/
def receive_url_spec (broker_url message_queue event_queue : String)
    (event all : Bool) : String :=
  let endpoint := if event then event_queue else message_queue
  broker_url ++ "/" ++ endpoint ++ (if all then "/all" else "")

end Broker

/-- C1: the claim states that `expired` is true iff `now ≥ expiresAt` and
`refreshExpired` iff `now ≥ refreshExpiresAt`, but the code computes
`now < expires_at` (resp. `now < refresh_expires_at`): for a token expiring at
10 with refresh expiry 20, at time 5 the code reports expired although the
expiry is in the future, and at time 15 it reports not expired although the
expiry has passed; the refresh predicate is inverted the same way. -/
theorem C1_expired_inverted :
    (Token.expired (Token.mk "Bearer" "tc" 10 "rt" 20) 5 = true
      ∧ Token.expired_spec (Token.mk "Bearer" "tc" 10 "rt" 20) 5 = false)
  ∧ (Token.expired (Token.mk "Bearer" "tc" 10 "rt" 20) 15 = false
      ∧ Token.expired_spec (Token.mk "Bearer" "tc" 10 "rt" 20) 15 = true)
  ∧ (Token.refresh_expired (Token.mk "Bearer" "tc" 10 "rt" 20) 15 = true
      ∧ Token.refresh_expired_spec (Token.mk "Bearer" "tc" 10 "rt" 20) 15 = false) := by
  decide

/-- C2: the claim states that a cached token whose expiry is in the future is
returned unchanged with no identity-provider request, but with the inverted
`expired` predicate the code takes the fetch branch: at time 5, with the cached
token valid until 10 (refresh until 20), `obtain_token` issues one
client-credentials request and does not return the cached token. -/
theorem C2_cached_valid_token_not_returned :
    (BaseAuthenticator.obtain_token (.clientCred "i" "s")
        (some (Token.mk "Bearer" "old" 10 "rt" 20)) 5
        (fun _ => IdpResponse.mk 200 "" "Bearer" "new" 60 "nrt" 120)).requests
      = [build_auth_payload (.clientCred "i" "s")]
  ∧ (BaseAuthenticator.obtain_token (.clientCred "i" "s")
        (some (Token.mk "Bearer" "old" 10 "rt" 20)) 5
        (fun _ => IdpResponse.mk 200 "" "Bearer" "new" 60 "nrt" 120)).result
      ≠ .ok (Token.mk "Bearer" "old" 10 "rt" 20) := by
  decide

/-- C3: the claim states that an expired cached token with a valid refresh
token triggers exactly one refresh request whose parsed result is returned,
but (a) with the inverted predicates the code returns the stale token with no
request at all (token expired at 5, refresh valid until 20, now 10), and
(b) on the branch where the refresh request is actually issued and succeeds,
`_refresh_token` falls off the end returning `None`, so `obtain_token` raises
instead of returning a refreshed token. -/
theorem C3_refresh_path_broken :
    (BaseAuthenticator.obtain_token (.clientCred "i" "s")
        (some (Token.mk "Bearer" "old" 5 "rt" 20)) 10
        (fun _ => IdpResponse.mk 200 "" "Bearer" "new" 60 "nrt" 120)
      = ⟨.ok (Token.mk "Bearer" "old" 5 "rt" 20),
         some (Token.mk "Bearer" "old" 5 "rt" 20), []⟩)
  ∧ ((BaseAuthenticator.obtain_token (.clientCred "i" "s")
        (some (Token.mk "Bearer" "old" 20 "rt" 5)) 10
        (fun _ => IdpResponse.mk 200 "" "Bearer" "new" 60 "nrt" 120)).requests
      = [[("grant_type", "refresh_token"), ("refresh_token", "rt")]]
    ∧ (BaseAuthenticator.obtain_token (.clientCred "i" "s")
        (some (Token.mk "Bearer" "old" 20 "rt" 5)) 10
        (fun _ => IdpResponse.mk 200 "" "Bearer" "new" 60 "nrt" 120)).result
      = .error (.authenticationException
          "Could not obtain token from S³I Identity Provider." none none)) := by
  decide

/-- C4 counterexample: on the refresh request path a status-401 response whose
body is exactly the invalid-client JSON raises the generic
`AuthenticationException`, not `InvalidCredentialsException` as the claim
states for both paths. -/
theorem C4_refresh_invalid_client_counterexample :
    (BaseAuthenticator.refresh_token "rt"
        (fun _ => IdpResponse.mk 401 invalid_client_body "" "" 0 "" 0)).2
      = .error (.authenticationException
          "Could not refresh token from S³I Identity Provider."
          (some 401) (some invalid_client_body))
  ∧ (BaseAuthenticator.refresh_token "rt"
        (fun _ => IdpResponse.mk 401 invalid_client_body "" "" 0 "" 0)).2
      ≠ .error (.invalidCredentialsException "Invalid client credentials."
          (some 401) (some invalid_client_body)) := by
  decide

/-- C4 amended: only the fresh-token fetch path distinguishes the
invalid-client body — there a status ≥ 400 with exactly that body raises
`InvalidCredentialsException` and any other ≥ 400 body raises
`AuthenticationException`, both carrying status code and raw body; the refresh
path raises the generic `AuthenticationException` with the same diagnostic
fields for every status ≥ 400 regardless of body. -/
theorem C4_error_classification (kind : AuthKind) (now : Time) (rt : String)
    (resp : IdpResponse) (h : 400 ≤ resp.status_code) :
    (resp.text = invalid_client_body →
      (BaseAuthenticator.get_token_from_idp kind now (fun _ => resp)).2
        = .error (.invalidCredentialsException "Invalid client credentials."
            (some resp.status_code) (some resp.text)))
  ∧ (resp.text ≠ invalid_client_body →
      (BaseAuthenticator.get_token_from_idp kind now (fun _ => resp)).2
        = .error (.authenticationException
            "Could not obtain token from S³I Identity Provider."
            (some resp.status_code) (some resp.text)))
  ∧ (BaseAuthenticator.refresh_token rt (fun _ => resp)).2
      = .error (.authenticationException
          "Could not refresh token from S³I Identity Provider."
          (some resp.status_code) (some resp.text)) := by
  refine ⟨fun ht => ?_, fun ht => ?_, ?_⟩
  · simp [BaseAuthenticator.get_token_from_idp, h, ht]
  · simp [BaseAuthenticator.get_token_from_idp, h, ht]
  · simp [BaseAuthenticator.refresh_token, h]

/-- C4 witness: the amended classification applied at status 401 with the
invalid-client body on the fetch path, and at status 500 with another body on
the refresh path. -/
theorem C4_error_classification_witness :
    (BaseAuthenticator.get_token_from_idp (.clientCred "i" "s") 0
        (fun _ => IdpResponse.mk 401 invalid_client_body "" "" 0 "" 0)).2
      = .error (.invalidCredentialsException "Invalid client credentials."
          (some 401) (some invalid_client_body))
  ∧ (BaseAuthenticator.refresh_token "rt"
        (fun _ => IdpResponse.mk 500 "boom" "" "" 0 "" 0)).2
      = .error (.authenticationException
          "Could not refresh token from S³I Identity Provider."
          (some 500) (some "boom")) :=
  ⟨(C4_error_classification (.clientCred "i" "s") 0 "rt"
      (IdpResponse.mk 401 invalid_client_body "" "" 0 "" 0) (by decide)).1 rfl,
   (C4_error_classification (.clientCred "i" "s") 0 "rt"
      (IdpResponse.mk 500 "boom" "" "" 0 "" 0) (by decide)).2.2⟩

/-- C5: the claim states the suffix appended when `all` is true is the literal
`/all`, but the Python literal `'\all'` at broker.py line 80 is the BEL
character `\x07` followed by `ll`: the code's URL differs from the spec-shaped
URL, while the four argument combinations do remain pairwise distinct for the
default queue names. -/
theorem C5_all_suffix_is_bel :
    (Broker.receive_url "b" "mq" "evq" false true = "b/mq\x07ll")
  ∧ (Broker.receive_url "b" "mq" "evq" false true
      ≠ Broker.receive_url_spec "b" "mq" "evq" false true)
  ∧ (Broker.receive_url "b" "mq" "evq" false false = "b/mq"
      ∧ Broker.receive_url "b" "mq" "evq" true false = "b/evq"
      ∧ Broker.receive_url "b" "mq" "evq" true true = "b/evq\x07ll")
  ∧ (Broker.receive_url "b" "mq" "evq" false false
        ≠ Broker.receive_url "b" "mq" "evq" true false
    ∧ Broker.receive_url "b" "mq" "evq" false false
        ≠ Broker.receive_url "b" "mq" "evq" false true
    ∧ Broker.receive_url "b" "mq" "evq" false false
        ≠ Broker.receive_url "b" "mq" "evq" true true
    ∧ Broker.receive_url "b" "mq" "evq" true false
        ≠ Broker.receive_url "b" "mq" "evq" false true
    ∧ Broker.receive_url "b" "mq" "evq" true false
        ≠ Broker.receive_url "b" "mq" "evq" true true
    ∧ Broker.receive_url "b" "mq" "evq" false true
        ≠ Broker.receive_url "b" "mq" "evq" true true) := by
  decide

/-- C6: `send` returns successfully exactly when the broker responds with
status 201; any other status yields the broker exception whose `status_code`
equals the response status, whose `body` equals the original outbound message,
and which carries the response headers and raw response text. -/
theorem C6_send_success_iff_201 (broker_url : String) (tok : Token)
    (endpoint : String) (message : Broker.JsonObj) (resp : Broker.HttpResponse) :
    (Broker.send broker_url tok endpoint message (fun _ => resp) = .ok ()
        ↔ resp.status_code = 201)
  ∧ (resp.status_code ≠ 201 →
      Broker.send broker_url tok endpoint message (fun _ => resp)
        = .error { message := "Failed to send message to " ++ endpoint ++ "."
                   headers := some resp.headers
                   body := some message
                   status_code := some resp.status_code
                   response := some resp.text }) := by
  constructor
  · constructor
    · intro h
      by_contra hne
      simp [Broker.send, hne] at h
    · intro h
      simp [Broker.send, h]
  · intro h
    simp [Broker.send, h]

/-- C6 witness: a status-400 response to a concrete send raises the exception
with status code 400 and the original message as body, and a status-201
response returns success. -/
theorem C6_send_witness :
    Broker.send "b" (Token.mk "Bearer" "t" 0 "r" 0) "ep" [("a", "1")]
        (fun _ => Broker.HttpResponse.mk 400 [] "bad")
      = .error { message := "Failed to send message to ep."
                 headers := some []
                 body := some [("a", "1")]
                 status_code := some 400
                 response := some "bad" }
  ∧ Broker.send "b" (Token.mk "Bearer" "t" 0 "r" 0) "ep" [("a", "1")]
        (fun _ => Broker.HttpResponse.mk 201 [] "ok") = .ok () :=
  ⟨(C6_send_success_iff_201 "b" (Token.mk "Bearer" "t" 0 "r" 0) "ep" [("a", "1")]
      (Broker.HttpResponse.mk 400 [] "bad")).2 (by decide),
   (C6_send_success_iff_201 "b" (Token.mk "Bearer" "t" 0 "r" 0) "ep" [("a", "1")]
      (Broker.HttpResponse.mk 201 [] "ok")).1.mpr rfl⟩

/-- C7: the claim states each component closes its transport on destruction
iff it constructed the transport itself, but the flag is recorded inverted
(`external_client = client is None`) and the destructor closes when the flag
is false: both the authenticator and the broker close a caller-supplied
transport and never close the one they constructed themselves. -/
theorem C7_transport_ownership_inverted :
    (BaseAuthenticator.del_closes
        (BaseAuthenticator.init (.clientCred "i" "s") (some ⟨0⟩) ⟨1⟩ DEFAULT_IDP_URL)
      = true)
  ∧ (BaseAuthenticator.del_closes
        (BaseAuthenticator.init (.clientCred "i" "s") none ⟨1⟩ DEFAULT_IDP_URL)
      = false)
  ∧ (Broker.del_closes
        (Broker.init (Thing.mk "i" "s" "m" "e") (some ⟨0⟩) ⟨1⟩ DEFAULT_BROKER_URL)
      = true)
  ∧ (Broker.del_closes
        (Broker.init (Thing.mk "i" "s" "m" "e") none ⟨1⟩ DEFAULT_BROKER_URL)
      = false) :=
  ⟨rfl, rfl, rfl, rfl⟩

/-- C8: constructing a Thing with an absent message queue yields
`"s3ibs://" ++ id` plus a warning, an absent event queue yields
`"s3ib://" ++ id ++ "/event"` plus a warning, and an explicitly supplied queue
value is passed through unchanged with no such warning. -/
theorem C8_thing_queue_defaults (id secret mq ev : String) :
    (Thing.post_init id secret none none
      = (⟨id, secret, "s3ibs://" ++ id, "s3ib://" ++ id ++ "/event"⟩,
         ["No message queue provided. Generated default message queue: "
            ++ ("s3ibs://" ++ id),
          "No event queue provided. Generated default event queue: "
            ++ ("s3ib://" ++ id ++ "/event")]))
  ∧ (Thing.post_init id secret (some mq) (some ev) = (⟨id, secret, mq, ev⟩, []))
  ∧ (Thing.post_init id secret (some mq) none
      = (⟨id, secret, mq, "s3ib://" ++ id ++ "/event"⟩,
         ["No event queue provided. Generated default event queue: "
            ++ ("s3ib://" ++ id ++ "/event")]))
  ∧ (Thing.post_init id secret none (some ev)
      = (⟨id, secret, "s3ibs://" ++ id, ev⟩,
         ["No message queue provided. Generated default message queue: "
            ++ ("s3ibs://" ++ id)])) :=
  ⟨rfl, rfl, rfl, rfl⟩

/-- C9: the string rendering of any exception in the taxonomy is its message
followed by exactly the present diagnostic fields, in the fixed order headers,
body, status code, response, with absent fields omitted. -/
theorem C9_render_fields_in_order {H B : Type} (fh : H → String) (fb : B → String)
    (e : S3IException H B) :
    e.render fh fb
      = (e.message ++ " " ++ String.intercalate "| " (e.metadata_spec fh fb)).trim := by
  rcases e with ⟨m, hd, bd, sc, rs⟩
  cases hd <;> cases bd <;> cases sc <;> cases rs <;> rfl

/-- C10: a Broker constructed from a Thing builds its own authenticator with
the client-credentials grant, whose payload carries the Thing id as client_id
and the Thing secret as client_secret; the password grant is never selected. -/
theorem C10_broker_uses_client_credentials (self_thing : Thing)
    (client : Option HttpClient) (fresh : HttpClient) (broker_url : String) :
    ((Broker.init self_thing client fresh broker_url).auth.kind
        = AuthKind.clientCred self_thing.id self_thing.secret)
  ∧ (build_auth_payload (Broker.init self_thing client fresh broker_url).auth.kind
        = [("grant_type", "client_credentials"), ("client_id", self_thing.id),
           ("client_secret", self_thing.secret)])
  ∧ (∀ i s u p, (Broker.init self_thing client fresh broker_url).auth.kind
        ≠ AuthKind.passwordCred i s u p) := by
  refine ⟨rfl, rfl, fun i s u p h => ?_⟩
  simp [Broker.init, BaseAuthenticator.init] at h

/-- C10 witness: the client-credentials payload of a concretely constructed
Broker, and its distinctness from a password payload. -/
theorem C10_broker_witness :
    build_auth_payload
        (Broker.init (Thing.mk "i" "s" "m" "e") none ⟨0⟩ DEFAULT_BROKER_URL).auth.kind
      = [("grant_type", "client_credentials"), ("client_id", "i"),
         ("client_secret", "s")]
  ∧ (Broker.init (Thing.mk "i" "s" "m" "e") none ⟨0⟩ DEFAULT_BROKER_URL).auth.kind
      ≠ AuthKind.passwordCred "i" "s" "u" "p" :=
  ⟨(C10_broker_uses_client_credentials (Thing.mk "i" "s" "m" "e") none ⟨0⟩
      DEFAULT_BROKER_URL).2.1,
   (C10_broker_uses_client_credentials (Thing.mk "i" "s" "m" "e") none ⟨0⟩
      DEFAULT_BROKER_URL).2.2 "i" "s" "u" "p"⟩

end S3I
